import Mathlib

/-!
Verification development for the Wellness-Chatbot-AI repository.

The embedding models the response-orchestration layer of
`services/geminiService.ts` (analyzeSymptoms, findNearbyDoctors) and the
local-inference layer of the application component (vitals classification,
calculateTrends, handleAnalyze).  The remote generative-model call is an
external collaborator; each orchestrator takes the outcome of that call as an
explicit `Except` argument, so a network failure is the `.error` case and a
successful response is a `ModelResponse` value.  JavaScript strings are Lean
`String`s, JS numbers appearing in the classifiers are `Int`/`ℚ` after the
explicit `parseInt`/`parseFloat` steps of the source, and a `parseInt` or
`parseFloat` result of `NaN` is modelled as `Option.none` (every JS comparison
against `NaN` is false, which the option-aware comparison helpers reproduce).
-/

namespace Wellness

/-! ### JS string and number primitives used by the source -/

/-- Decimal digit test, the `\d` class of the source regexes. -/
def isDigitChar (c : Char) : Bool := '0' ≤ c && c ≤ '9'

/-- Word-character test, the `\w` class of the source regexes. -/
def isWordChar (c : Char) : Bool := c.isAlphanum || c = '_'

/-- Whitespace test, the `\s` class of the source regexes and `String.trim`. -/
def isSpaceChar (c : Char) : Bool := c.isWhitespace

/-- Value of a list of decimal digits, as `parseInt(digits, 10)` computes it. -/
def digitsToNat (ds : List Char) : Nat :=
  ds.foldl (fun a c => 10 * a + (c.toNat - '0'.toNat)) 0

/-- Trim whitespace from both ends, as JS `String.prototype.trim`. -/
def trimChars (cs : List Char) : List Char :=
  ((cs.dropWhile isSpaceChar).reverse.dropWhile isSpaceChar).reverse

/-- `text.split('\n')` of JS: split at every newline, keeping empty pieces. -/
def splitLines : List Char → List (List Char)
  | [] => [[]]
  | c :: cs =>
    if c = '\n' then [] :: splitLines cs
    else
      match splitLines cs with
      | [] => [[c]]
      | l :: ls => (c :: l) :: ls

/-- `lines.join('\n')` of JS. -/
def joinLines : List (List Char) → List Char
  | [] => []
  | [l] => l
  | l :: ls => l ++ '\n' :: joinLines ls

/-- Strip a literal pattern from the front of a character list. -/
def stripLitChars : List Char → List Char → Option (List Char)
  | [], cs => some cs
  | _ :: _, [] => none
  | p :: ps, c :: cs => if c = p then stripLitChars ps cs else none

/-- First-match regex scanning: try the matcher at every start position from
left to right, as a JS regex without anchors does. -/
def scanFor {α : Type} (f : List Char → Option α) : List Char → Option α
  | [] => f []
  | c :: cs =>
    match f (c :: cs) with
    | some r => some r
    | none => scanFor f cs

/-- JS `parseInt(s)` on a base-10 numeral: skip leading whitespace, optional
sign, then a maximal digit run; `NaN` (here `none`) when no digit follows. -/
def jsParseInt (s : String) : Option Int :=
  let cs := s.data.dropWhile isSpaceChar
  match cs with
  | '-' :: t =>
    let ds := t.takeWhile isDigitChar
    if ds.isEmpty then none else some (-(digitsToNat ds : Int))
  | '+' :: t =>
    let ds := t.takeWhile isDigitChar
    if ds.isEmpty then none else some (digitsToNat ds : Int)
  | t =>
    let ds := t.takeWhile isDigitChar
    if ds.isEmpty then none else some (digitsToNat ds : Int)

/-- JS `parseFloat(s)` on a plain decimal numeral: skip leading whitespace,
optional sign, integer digits, optional fraction; `NaN` (here `none`) when no
digit is found.  Exponent notation is not produced by the numeric inputs of
this application and is not modelled. -/
def jsParseFloat (s : String) : Option ℚ :=
  let cs := s.data.dropWhile isSpaceChar
  let core := fun (t : List Char) (sgn : ℚ) =>
    let intDs := t.takeWhile isDigitChar
    let rest := t.dropWhile isDigitChar
    let fracDs :=
      match rest with
      | '.' :: u => u.takeWhile isDigitChar
      | _ => []
    if intDs.isEmpty && fracDs.isEmpty then none
    else some (sgn * ((digitsToNat intDs : ℚ) +
      (digitsToNat fracDs : ℚ) / (10 ^ fracDs.length)))
  match cs with
  | '-' :: t => core t (-1)
  | '+' :: t => core t 1
  | t => core t 1

/-- JS `Math.round`: half-way cases go toward positive infinity. -/
def jsRound (q : ℚ) : Int := Int.floor (q + 1/2)

/-! ### Data model (`types.ts`) -/

/-- `GroundingSource` of `types.ts`. -/
structure GroundingSource where
  title : String
  uri : String
deriving DecidableEq

/-- `MapSource` of `types.ts`; the optional `address` is `Option`. -/
structure MapSource where
  title : String
  uri : String
  address : Option String
deriving DecidableEq

/-- The `confidence` component of `AnalysisResult` in `types.ts`. -/
structure Confidence where
  score : Nat
  label : String
deriving DecidableEq

/-- `AnalysisResult` of `types.ts`. -/
structure AnalysisResult where
  content : String
  confidence : Confidence
  language : String
  sources : List GroundingSource
deriving DecidableEq

/-- `DoctorSearchResult` of `types.ts`. -/
structure DoctorSearchResult where
  content : String
  mapSources : List MapSource
deriving DecidableEq

/-- `Vitals` of `types.ts`: five optional numeric strings, `""` = absent. -/
structure Vitals where
  temp : String
  hr : String
  bpSys : String
  bpDia : String
  spo2 : String
deriving DecidableEq

/-- `HistoryItem` of `types.ts`; `vitals` is the optional snapshot field. -/
structure HistoryItem where
  id : String
  symptoms : String
  timestamp : Nat
  result : AnalysisResult
  vitals : Option Vitals
deriving DecidableEq

/-- Severity levels of `LocalAnalysis` in `types.ts`. -/
inductive Severity where
  | normal
  | warning
  | critical
deriving DecidableEq

/-- `LocalAnalysis` of `types.ts`. -/
structure LocalAnalysis where
  condition : String
  severity : Severity
  message : String
deriving DecidableEq

/-- Direction values of `TrendInsight` in `types.ts`. -/
inductive Direction where
  | up
  | down
  | stable
deriving DecidableEq

/-- `TrendInsight` of `types.ts`. -/
structure TrendInsight where
  metric : String
  change : String
  direction : Direction
  message : String
deriving DecidableEq

/-! ### The remote model interface (external collaborator) -/

/-- A web-type grounding reference `{title, uri}` of a grounding chunk. -/
structure WebRef where
  title : String
  uri : String
deriving DecidableEq

/-- A maps-type grounding reference `{title, uri, address}` of a chunk. -/
structure MapsRef where
  title : String
  uri : String
  address : Option String
deriving DecidableEq

/-- One entry of `groundingMetadata.groundingChunks`: it may carry a web
reference, a maps reference, both, or neither. -/
structure Chunk where
  web : Option WebRef
  maps : Option MapsRef
deriving DecidableEq

/-- The relevant surface of a successful `generateContent` response:
`response.text` (absent modelled as `none`) and the grounding chunks (an
absent chunk list is the empty list). -/
structure ModelResponse where
  text : Option String
  chunks : List Chunk
deriving DecidableEq

/-- `isErr e` is true exactly on the `.error` case of an `Except`. -/
def isErr {ε α : Type} : Except ε α → Bool
  | .error _ => true
  | .ok _ => false

/-! ### `analyzeSymptoms` response processing (`services/geminiService.ts`) -/

/-- The literal marker `CONFIDENCE_SCORE:` of the first-line metadata. -/
def scoreMarker : List Char := "CONFIDENCE_SCORE:".data

/-- The literal marker `CONFIDENCE_LABEL:` of the first-line metadata. -/
def labelMarker : List Char := "CONFIDENCE_LABEL:".data

/-- One attempt of the regex `/CONFIDENCE_SCORE:\s*(\d+)/` at a fixed start
position: the literal, then any whitespace, then at least one digit captured
as a base-10 integer. -/
def matchScoreHere (cs : List Char) : Option Nat :=
  match stripLitChars scoreMarker cs with
  | none => none
  | some rest =>
    let ds := (rest.dropWhile isSpaceChar).takeWhile isDigitChar
    if ds.isEmpty then none else some (digitsToNat ds)

/-- One attempt of the regex `/CONFIDENCE_LABEL:\s*(\w+)/` at a fixed start
position: the literal, then any whitespace, then at least one word char. -/
def matchLabelHere (cs : List Char) : Option String :=
  match stripLitChars labelMarker cs with
  | none => none
  | some rest =>
    let ws := (rest.dropWhile isSpaceChar).takeWhile isWordChar
    if ws.isEmpty then none else some ⟨ws⟩

/-- `firstLine.match(/CONFIDENCE_SCORE:\s*(\d+)/)`, first match wins. -/
def scanScore (cs : List Char) : Option Nat := scanFor matchScoreHere cs

/-- `firstLine.match(/CONFIDENCE_LABEL:\s*(\w+)/)`, first match wins. -/
def scanLabel (cs : List Char) : Option String := scanFor matchLabelHere cs

/-- `firstLine.includes('CONFIDENCE_SCORE:')`. -/
def containsMarker (cs : List Char) : Bool :=
  (scanFor (fun l => stripLitChars scoreMarker l) cs).isSome

/-- `fullText.split('\n')[0].trim()`, the inspected first line. -/
def firstLineOf (text : String) : List Char :=
  trimChars ((splitLines text.data).headD [])

/-- `lines.slice(1).join('\n').trim()`, the content kept on a successful
metadata parse: every line after the first, rejoined and trimmed. -/
def restContentOf (text : String) : String :=
  ⟨trimChars (joinLines ((splitLines text.data).drop 1))⟩

/-- Lines 90–116 of `geminiService.ts`: inspect the first line for the
metadata marker; when the marker is present and both regexes match, the
confidence is the parsed pair and the content drops the first line; in every
other case the defaults `{score 0, label "Low"}` and the whole text stand. -/
def parseConfidence (fullText : String) : Confidence × String :=
  let firstLine := firstLineOf fullText
  if containsMarker firstLine then
    match scanScore firstLine, scanLabel firstLine with
    | some s, some l => (⟨s, l⟩, restContentOf fullText)
    | _, _ => (⟨0, "Low"⟩, fullText)
  else (⟨0, "Low"⟩, fullText)

/-- Lines 118–130 of `geminiService.ts`: keep the web-type grounding chunks
that carry a non-empty uri and title, in response order. -/
def extractWebSources (chunks : List Chunk) : List GroundingSource :=
  chunks.filterMap fun chunk =>
    match chunk.web with
    | some w => if w.uri ≠ "" && w.title ≠ "" then some ⟨w.title, w.uri⟩ else none
    | none => none

/-- The placeholder substituted for a missing or empty `response.text`. -/
def noTextPlaceholder : String := "Unable to generate analysis. Please try again."

/-- `response.text || "Unable to generate analysis. Please try again."`:
JS `||` replaces both an absent and an empty-string text. -/
def fullTextOf (resp : ModelResponse) : String :=
  match resp.text with
  | none => noTextPlaceholder
  | some t => if t = "" then noTextPlaceholder else t

/-- The message of the error thrown by the catch block of `analyzeSymptoms`. -/
def analysisErrorMessage : String :=
  "Failed to analyze symptoms. Please check your connection or try a different image."

/-- `analyzeSymptoms` of `geminiService.ts`, lines 77–141, from the point
where the single `generateContent` call resolves.  The call outcome is the
`call` argument: `.error` when the remote call rejects for any reason, `.ok`
with the response otherwise.  Exactly one call is consumed; there is no
retry path in the source. -/
def analyzeSymptoms (language : String) (call : Except Unit ModelResponse) :
    Except String AnalysisResult :=
  match call with
  | .error _ => .error analysisErrorMessage
  | .ok resp =>
    let fullText := fullTextOf resp
    let parsed := parseConfidence fullText
    .ok ⟨parsed.2, parsed.1, language, extractWebSources resp.chunks⟩

/-! ### `findNearbyDoctors` (`services/geminiService.ts`, lines 144–225) -/

/-- The web-fallback branch of `processResponse`: a chunk without a usable
maps reference still yields a map source from its web reference, with an
empty address. -/
def webToMapSource (chunk : Chunk) : Option MapSource :=
  match chunk.web with
  | some w =>
    if w.uri ≠ "" && w.title ≠ "" then some ⟨w.title, w.uri, some ""⟩ else none
  | none => none

/-- One chunk of `processResponse`: prefer a maps reference with non-empty
uri and title, otherwise fall back to the web reference. -/
def chunkToMapSource (chunk : Chunk) : Option MapSource :=
  match chunk.maps with
  | some m =>
    if m.uri ≠ "" && m.title ≠ "" then some ⟨m.title, m.uri, m.address⟩
    else webToMapSource chunk
  | none => webToMapSource chunk

/-- `processResponse` of `findNearbyDoctors`: default title for a missing or
empty text, and the citation list built chunk by chunk in order. -/
def processResponse (resp : ModelResponse) (defaultTitle : String) :
    DoctorSearchResult :=
  let text :=
    match resp.text with
    | none => defaultTitle
    | some t => if t = "" then defaultTitle else t
  ⟨text, resp.chunks.filterMap chunkToMapSource⟩

/-- The message of the error thrown when the Stage-2 fallback itself fails. -/
def doctorErrorMessage : String := "Failed to locate nearby doctors."

/-- The Stage-2 (web-search) attempt of `findNearbyDoctors`: return its
processed response, or throw when it fails.  The `Bool` of the result records
that Stage 2 was issued. -/
def runFallback (stage2 : Except Unit ModelResponse) :
    Except String (DoctorSearchResult × Bool) :=
  match stage2 with
  | .ok r => .ok (processResponse r "Search Results", true)
  | .error _ => .error doctorErrorMessage

/-- `findNearbyDoctors` of `geminiService.ts`: Stage 1 is the maps-grounded
call; when it succeeds and yields at least one citation its result is
returned at once (`false` = Stage 2 never issued); when it fails or yields
zero citations, control falls through to the Stage-2 attempt. -/
def findNearbyDoctors (stage1 stage2 : Except Unit ModelResponse) :
    Except String (DoctorSearchResult × Bool) :=
  match stage1 with
  | .ok r =>
    let result := processResponse r "Maps Search Results"
    if result.mapSources.length > 0 then .ok (result, false)
    else runFallback stage2
  | .error _ => runFallback stage2

/-! ### Local vitals classification (App component, lines 120–160)

Each comparison of the source is against a freshly parsed number; a failed
parse is JS `NaN`, for which `<` and `>` are always false, so control falls
through every branch to the final `normal` alert.  The option-aware
comparisons below reproduce exactly that. -/

/-- `v > k` of JS where `v` may be `NaN` (then false). -/
def optGTq : Option ℚ → ℚ → Bool
  | some v, k => decide (k < v)
  | none, _ => false

/-- `v < k` of JS where `v` may be `NaN` (then false). -/
def optLTq : Option ℚ → ℚ → Bool
  | some v, k => decide (v < k)
  | none, _ => false

/-- `v > k` of JS on integers where `v` may be `NaN` (then false). -/
def optGT : Option Int → Int → Bool
  | some v, k => decide (k < v)
  | none, _ => false

/-- `v < k` of JS on integers where `v` may be `NaN` (then false). -/
def optLT : Option Int → Int → Bool
  | some v, k => decide (v < k)
  | none, _ => false

/-- The fever cutoff `100.4` of line 127, written as an explicit reduced
fraction so that the kernel can evaluate comparisons against it; the lemma
`feverCutoff_eq` identifies it with the scientific literal of the source. -/
def feverCutoff : ℚ := ⟨502, 5, by decide, by decide⟩

/-- The fever check of lines 124–130, applied to `parseFloat(vitals.temp)`. -/
def classifyTempOpt (t : Option ℚ) : LocalAnalysis :=
  if optGTq t 103 then
    ⟨"High Fever", .critical, "Medical attention recommended immediately."⟩
  else if optGTq t feverCutoff then
    ⟨"Fever", .warning, "Monitor temperature closely."⟩
  else if optLTq t 95 then
    ⟨"Hypothermia Risk", .critical, "Body temperature is dangerously low."⟩
  else ⟨"Temperature", .normal, "Within normal range."⟩

/-- The heart-rate check of lines 133–139, applied to `parseInt(vitals.hr)`. -/
def classifyHrOpt (hr : Option Int) : LocalAnalysis :=
  if optGT hr 120 then
    ⟨"Tachycardia", .critical, "Heart rate is significantly high."⟩
  else if optGT hr 100 then
    ⟨"Elevated HR", .warning, "Heart rate is above normal."⟩
  else if optLT hr 50 then
    ⟨"Bradycardia", .warning, "Heart rate is lower than normal."⟩
  else ⟨"Heart Rate", .normal, "Normal resting heart rate."⟩

/-- The blood-pressure check of lines 142–149, on both parsed values. -/
def classifyBpOpt (sys dia : Option Int) : LocalAnalysis :=
  if optGT sys 180 || optGT dia 120 then
    ⟨"Hypertensive Crisis", .critical, "Seek emergency care immediately."⟩
  else if optGT sys 140 || optGT dia 90 then
    ⟨"High BP", .warning, "Stage 2 Hypertension range."⟩
  else if optGT sys 130 || optGT dia 80 then
    ⟨"Elevated BP", .warning, "Stage 1 Hypertension range."⟩
  else ⟨"Blood Pressure", .normal, "Normal healthy range."⟩

/-- The SpO2 check of lines 152–157, applied to `parseInt(vitals.spo2)`. -/
def classifySpo2Opt (o : Option Int) : LocalAnalysis :=
  if optLT o 90 then
    ⟨"Hypoxia Risk", .critical, "Oxygen levels are dangerously low."⟩
  else if optLT o 95 then
    ⟨"Low Oxygen", .warning, "Oxygen saturation is below optimal."⟩
  else ⟨"Oxygen Level", .normal, "Normal saturation."⟩

/-- The vitals-classification effect of lines 120–160: one alert pushed per
populated category in the fixed source order temperature, heart rate, blood
pressure (both values needed), SpO2. -/
def localAnalysisOf (v : Vitals) : List LocalAnalysis :=
  (if v.temp ≠ "" then [classifyTempOpt (jsParseFloat v.temp)] else []) ++
  (if v.hr ≠ "" then [classifyHrOpt (jsParseInt v.hr)] else []) ++
  (if v.bpSys ≠ "" ∧ v.bpDia ≠ "" then
    [classifyBpOpt (jsParseInt v.bpSys) (jsParseInt v.bpDia)] else []) ++
  (if v.spo2 ≠ "" then [classifySpo2Opt (jsParseInt v.spo2)] else [])

/-- Condition names a temperature-category alert can carry. -/
def tempConds : List String := ["High Fever", "Fever", "Hypothermia Risk", "Temperature"]

/-- Condition names a heart-rate-category alert can carry. -/
def hrConds : List String := ["Tachycardia", "Elevated HR", "Bradycardia", "Heart Rate"]

/-- Condition names a blood-pressure-category alert can carry. -/
def bpConds : List String := ["Hypertensive Crisis", "High BP", "Elevated BP", "Blood Pressure"]

/-- Condition names an SpO2-category alert can carry. -/
def spo2Conds : List String := ["Hypoxia Risk", "Low Oxygen", "Oxygen Level"]

/-- Whether an alert belongs to the category with the given condition names. -/
def isCat (conds : List String) (a : LocalAnalysis) : Bool :=
  conds.contains a.condition

/-! ### Trend analysis (`calculateTrends`, App lines 163–193) -/

/-- The `hr` string of an entry's vitals snapshot, `""` when the snapshot or
the field is absent (`curr.vitals?.hr` being undefined is falsy like `""`). -/
def hrField (h : HistoryItem) : String :=
  match h.vitals with
  | some v => v.hr
  | none => ""

/-- `historyData.filter(h => h.vitals).slice(0, 5)`: the up-to-5 most recent
entries that carry a vitals snapshot (history is newest-first). -/
def recentWithVitals (historyData : List HistoryItem) : List HistoryItem :=
  (historyData.filter fun h => h.vitals.isSome).take 5

/-- `parseInt(curr.vitals?.hr || '0') || 0`: an absent field reads as `'0'`
and an unparseable one as `0`. -/
def hrContribution (h : HistoryItem) : Int :=
  (jsParseInt (if hrField h = "" then "0" else hrField h)).getD 0

/-- `calculateTrends` of the App component, lines 163–193.  The heart-rate
average divides the zero-padded sum by the number of entries whose `hr` field
is populated; a zero divisor gives JS `NaN`, and `NaN > 0` is false exactly
like `0 > 0` on the `ℚ` convention `x / 0 = 0` used here.  A current `hr`
that fails to parse is `NaN`, making `|percentChange| > 10` false, which the
`none` branch reproduces. -/
def calculateTrends (currentVitals : Vitals) (historyData : List HistoryItem) :
    List TrendInsight :=
  let recentHistory := recentWithVitals historyData
  if recentHistory.isEmpty then [] else
  if currentVitals.hr ≠ "" then
    match jsParseInt currentVitals.hr with
    | none => []
    | some currentHR =>
      let cnt := (recentHistory.filter fun h => hrField h ≠ "").length
      let avgHR : ℚ := ((recentHistory.map fun h => (hrContribution h : ℚ)).sum) / (cnt : ℚ)
      if 0 < avgHR then
        let percentChange := ((currentHR : ℚ) - avgHR) / avgHR * 100
        if 10 < |percentChange| then
          [⟨"Heart Rate",
            toString (jsRound percentChange).natAbs ++ "%",
            if 0 < percentChange then .up else .down,
            if 0 < percentChange then
              "Significant increase compared to your recent average. Monitor for fatigue."
            else "Lower than your recent average."⟩]
        else []
      else []
  else []

/-! ### History handling (`handleAnalyze`, App lines 273–310) -/

/-- `[newHistoryItem, ...history].slice(0, 10)` of line 298: prepend the new
entry and keep the first ten. -/
def appendHistory (item : HistoryItem) (history : List HistoryItem) :
    List HistoryItem :=
  (item :: history).take 10

/-- The `newHistoryItem` literal of lines 290–296: the symptoms text or a
placeholder, the fresh id and timestamp, the analysis result, and always the
current vitals snapshot. -/
def mkHistoryItem (symptoms : String) (hasImage : Bool) (v : Vitals)
    (newId : String) (now : Nat) (data : AnalysisResult) : HistoryItem :=
  ⟨newId,
   if symptoms ≠ "" then symptoms
   else if hasImage then "[Image Scan Analysis]" else "[Vitals Analysis]",
   now, data, some v⟩

/-- `Object.values(vitals).some(v => v)`: at least one vitals field entered. -/
def vitalsAny (v : Vitals) : Bool :=
  v.temp ≠ "" || v.hr ≠ "" || v.bpSys ≠ "" || v.bpDia ≠ "" || v.spo2 ≠ ""

/-- The observable outcome of one submission: the trend insights set, the
history after the mutation, and the result or error surfaced to the UI. -/
structure AnalyzeOutcome where
  trendInsights : List TrendInsight
  history : List HistoryItem
  result : Option AnalysisResult
  error : Option String
deriving DecidableEq

/-- `handleAnalyze` of the App component, lines 273–310.  `none` is the early
return of the empty-submission guard.  The trends are computed from the
history state as read before the remote call; on success the new entry is
built and prepended afterwards; on failure the history is untouched and the
error message is surfaced. -/
def handleAnalyze (symptoms : String) (hasImage : Bool) (v : Vitals)
    (history : List HistoryItem) (newId : String) (now : Nat)
    (language : String) (call : Except Unit ModelResponse) :
    Option AnalyzeOutcome :=
  if (trimChars symptoms.data).isEmpty && !hasImage && !vitalsAny v then none
  else some <|
    let trends := calculateTrends v history
    match analyzeSymptoms language call with
    | .ok data =>
      ⟨trends,
       appendHistory (mkHistoryItem symptoms hasImage v newId now data) history,
       some data, none⟩
    | .error msg => ⟨trends, history, none, some msg⟩

/-! ### Concrete data for witnesses and examples -/

/-- An arbitrary stored analysis result for example history entries. -/
def exResult : AnalysisResult := ⟨"ok", ⟨0, "Low"⟩, "English", []⟩

/-- A vitals snapshot whose only populated field is a heart rate of 70. -/
def hr70 : Vitals := ⟨"", "70", "", "", ""⟩

/-- Five newest-first history entries, each with heart rate 70. -/
def exampleHistory : List HistoryItem :=
  [⟨"a", "s", 5, exResult, some hr70⟩,
   ⟨"b", "s", 4, exResult, some hr70⟩,
   ⟨"c", "s", 3, exResult, some hr70⟩,
   ⟨"d", "s", 2, exResult, some hr70⟩,
   ⟨"e", "s", 1, exResult, some hr70⟩]

/-- A current vitals reading with heart rate 85. -/
def hr85 : Vitals := ⟨"", "85", "", "", ""⟩

/-- A history entry used by witnesses. -/
def exItem : HistoryItem := ⟨"w", "cough", 9, exResult, some hr70⟩

/-- A history already holding ten entries, for the eviction witness. -/
def ex10 : List HistoryItem :=
  (List.range 10).map fun i => ⟨toString i, "s", i, exResult, none⟩

/-- Modelled from the spec (the claim wording of C4 and §4.2): the arithmetic
mean of the parsed heart rates over the filtered recent entries, entries
missing the `hr` field excluded from both sum and divisor. -/
def meanHR (hist : List HistoryItem) : ℚ :=
  let withHr := (recentWithVitals hist).filter fun h => hrField h ≠ ""
  ((withHr.map fun h => (hrContribution h : ℚ)).sum) / (withHr.length : ℚ)

/-- Modelled from the spec (§4.4 bucket thresholds, the invariant of C5): the
label agrees with the score bucket, High for 80–100, Medium for 50–79, Low
for 0–49. -/
def specBucketAgrees (c : Confidence) : Bool :=
  (c.label = "High" && 80 ≤ c.score && c.score ≤ 100) ||
  (c.label = "Medium" && 50 ≤ c.score && c.score ≤ 79) ||
  (c.label = "Low" && c.score ≤ 49)

/-! ## Claim theorems -/

/-- C1, counterexample: a successful remote call that returns no usable text
(the response carries no text at all) does NOT make `analyzeSymptoms` fail;
an `AnalysisResult` holding the placeholder message is returned instead, so
the claim that every no-usable-text outcome is an error is false. -/
theorem c1_no_text_still_returns_result :
    analyzeSymptoms "English" (.ok ⟨none, []⟩) =
      .ok ⟨noTextPlaceholder, ⟨0, "Low"⟩, "English", []⟩ := rfl

/-- C1, amended: `analyzeSymptoms` fails with the single generic error
message exactly when the remote call itself errors; a single call outcome is
consumed with no retry; when the call succeeds but carries no usable text
(absent or empty), no error is raised and a placeholder `AnalysisResult`
(content the placeholder message, confidence score 0 / label Low) is
returned. -/
theorem analyzeSymptoms_error_iff_call_error :
    (∀ (language : String) (call : Except Unit ModelResponse),
      isErr (analyzeSymptoms language call) = isErr call) ∧
    (∀ language : String,
      analyzeSymptoms language (.error ()) = .error analysisErrorMessage) ∧
    (∀ (language : String) (resp : ModelResponse),
      resp.text = none ∨ resp.text = some "" →
      analyzeSymptoms language (.ok resp) =
        .ok ⟨noTextPlaceholder, ⟨0, "Low"⟩, language, extractWebSources resp.chunks⟩) := by
  have hplaceholder : parseConfidence noTextPlaceholder = (⟨0, "Low"⟩, noTextPlaceholder) := by
    decide
  refine ⟨fun language call => ?_, fun language => rfl, fun language resp h => ?_⟩
  · cases call <;> rfl
  · have htext : fullTextOf resp = noTextPlaceholder := by
      rcases h with h | h <;> simp [fullTextOf, h]
    simp [analyzeSymptoms, htext, hplaceholder]

/-- C1 witness: the amended theorem applied to a concrete empty-text
response carrying one usable web chunk. -/
theorem analyzeSymptoms_error_iff_call_error_witness :
    analyzeSymptoms "English" (.ok ⟨some "", [⟨some ⟨"t", "u"⟩, none⟩]⟩) =
      .ok ⟨noTextPlaceholder, ⟨0, "Low"⟩, "English",
        extractWebSources [⟨some ⟨"t", "u"⟩, none⟩]⟩ :=
  analyzeSymptoms_error_iff_call_error.2.2 "English"
    ⟨some "", [⟨some ⟨"t", "u"⟩, none⟩]⟩ (Or.inr rfl)

/-- C2: the two-stage doctor lookup. A Stage-1 success with at least one
citation is returned as is and Stage 2 is never issued (flag `false`); a
Stage-1 error or zero-citation outcome hands over to Stage 2, whose result is
returned even with zero citations (flag `true`); the operation errors exactly
when Stage 2 is both reached and itself errors. -/
theorem findNearbyDoctors_fallback_protocol :
    (∀ (stage2 : Except Unit ModelResponse) (r : ModelResponse),
      (processResponse r "Maps Search Results").mapSources ≠ [] →
      findNearbyDoctors (.ok r) stage2 =
        .ok (processResponse r "Maps Search Results", false)) ∧
    (∀ (stage1 : Except Unit ModelResponse) (r2 : ModelResponse),
      (∀ r, stage1 = .ok r → (processResponse r "Maps Search Results").mapSources = []) →
      findNearbyDoctors stage1 (.ok r2) = .ok (processResponse r2 "Search Results", true)) ∧
    (∀ (stage1 stage2 : Except Unit ModelResponse),
      isErr (findNearbyDoctors stage1 stage2) = true ↔
        (isErr stage2 = true ∧
          (isErr stage1 = true ∨
            ∃ r, stage1 = .ok r ∧
              (processResponse r "Maps Search Results").mapSources = []))) := by
  refine ⟨fun stage2 r h => ?_, fun stage1 r2 h => ?_, fun stage1 stage2 => ?_⟩
  · simp only [findNearbyDoctors]
    rw [if_pos (List.length_pos.mpr h)]
  · cases stage1 with
    | error e => rfl
    | ok r =>
      simp only [findNearbyDoctors]
      rw [if_neg (by simp [h r rfl]), runFallback]
  · cases stage1 with
    | error e => cases stage2 <;> simp [findNearbyDoctors, runFallback, isErr]
    | ok r =>
      by_cases hm : (processResponse r "Maps Search Results").mapSources = []
      · cases stage2 <;>
          simp [findNearbyDoctors, runFallback, isErr, hm]
      · simp [findNearbyDoctors, isErr, List.length_pos.mpr hm, hm]

/-- C2 witness: Stage 1 errored and Stage 2 succeeded with zero citations;
the Stage-2 result is returned without error. -/
theorem findNearbyDoctors_fallback_protocol_witness :
    findNearbyDoctors (.error ()) (.ok ⟨none, []⟩) =
      .ok (processResponse ⟨none, []⟩ "Search Results", true) :=
  findNearbyDoctors_fallback_protocol.2.1 (.error ()) ⟨none, []⟩ (fun _ h => nomatch h)

/-- C3: the confidence parser.  When the trimmed first line contains the
marker and both regexes match, the result is exactly the parsed score/label
pair with the content being every line after the first, trimmed; in every
other case the fallback score 0 / label Low stands with the entire unmodified
text as content; the concrete example of the spec parses to 72/Medium with
content the second line.  The parser is a total function, so it never
throws. -/
theorem parseConfidence_policy :
    (∀ (text : String) (s : Nat) (l : String),
      containsMarker (firstLineOf text) = true →
      scanScore (firstLineOf text) = some s →
      scanLabel (firstLineOf text) = some l →
      parseConfidence text = (⟨s, l⟩, restContentOf text)) ∧
    (∀ text : String,
      containsMarker (firstLineOf text) = false ∨
        scanScore (firstLineOf text) = none ∨ scanLabel (firstLineOf text) = none →
      parseConfidence text = (⟨0, "Low"⟩, text)) ∧
    parseConfidence "CONFIDENCE_SCORE: 72 | CONFIDENCE_LABEL: Medium\nBody text" =
      (⟨72, "Medium"⟩, "Body text") := by
  refine ⟨fun text s l hm hs hl => ?_, fun text h => ?_, by decide⟩
  · simp [parseConfidence, hm, hs, hl]
  · rcases h with h | h | h
    · simp [parseConfidence, h]
    · by_cases hm : containsMarker (firstLineOf text) = true
      · simp [parseConfidence, hm, h]
      · simp [parseConfidence, hm]
    · by_cases hm : containsMarker (firstLineOf text) = true
      · cases hs : scanScore (firstLineOf text) <;> simp [parseConfidence, hm, hs, h]
      · simp [parseConfidence, hm]

/-- C3 witness: the success branch applied to the spec's concrete input. -/
theorem parseConfidence_policy_witness :
    parseConfidence "CONFIDENCE_SCORE: 72 | CONFIDENCE_LABEL: Medium\nBody text" =
      (⟨72, "Medium"⟩,
        restContentOf "CONFIDENCE_SCORE: 72 | CONFIDENCE_LABEL: Medium\nBody text") :=
  parseConfidence_policy.1 _ 72 "Medium" (by decide) (by decide) (by decide)

/-- C8: after every append the history holds at most 10 entries with the new
entry first (newest-first order); when the history already holds 10 entries,
the append evicts exactly the oldest (last) entry, leaving 10 with the new
entry first. -/
theorem history_bound_newest_first :
    ∀ (item : HistoryItem) (history : List HistoryItem),
      (appendHistory item history).length ≤ 10 ∧
      (appendHistory item history).head? = some item ∧
      (history.length = 10 →
        appendHistory item history = item :: history.dropLast ∧
        (appendHistory item history).length = 10) := by
  intro item history
  refine ⟨?_, ?_, fun h10 => ⟨?_, ?_⟩⟩
  · simp [appendHistory]
  · simp [appendHistory, List.take_succ_cons]
  · rw [appendHistory, List.take_succ_cons, List.dropLast_eq_take, h10]
  · simp [appendHistory, h10]

/-- C8 witness: appending an 11th entry to a concrete 10-entry history
evicts the oldest, leaving exactly 10, newest-first. -/
theorem history_bound_newest_first_witness :
    appendHistory exItem ex10 = exItem :: ex10.dropLast ∧
    (appendHistory exItem ex10).length = 10 :=
  (history_bound_newest_first exItem ex10).2.2 rfl

/-- C9: on every submission accepted by the guard, the trend insights equal
`calculateTrends` applied to the history as it was before the new entry is
created; and under fresh-id creation the entry being created is not a member
of that prior history, so the trend snapshot never includes it. -/
theorem trends_computed_before_append :
    ∀ (symptoms : String) (hasImage : Bool) (v : Vitals) (history : List HistoryItem)
      (newId : String) (now : Nat) (language : String) (call : Except Unit ModelResponse)
      (out : AnalyzeOutcome),
      handleAnalyze symptoms hasImage v history newId now language call = some out →
      out.trendInsights = calculateTrends v history ∧
      ((∀ e ∈ history, e.id ≠ newId) →
        ∀ data, mkHistoryItem symptoms hasImage v newId now data ∉ history) := by
  intro symptoms hasImage v history newId now language call out h
  constructor
  · unfold handleAnalyze at h
    split at h
    · exact absurd h (by simp)
    · cases hcall : analyzeSymptoms language call with
      | ok data => rw [hcall] at h; cases h; rfl
      | error msg => rw [hcall] at h; cases h; rfl
  · intro hfresh data hmem
    exact hfresh _ hmem rfl

/-- C9 witness: a concrete failing submission over an empty history; the
trend snapshot is the empty prior history and the fresh entry is not in it. -/
theorem trends_computed_before_append_witness :
    (⟨[], [], none, some analysisErrorMessage⟩ : AnalyzeOutcome).trendInsights =
      calculateTrends ⟨"", "", "", "", ""⟩ [] ∧
    mkHistoryItem "headache" false ⟨"", "", "", "", ""⟩ "fresh" 0 exResult ∉
      ([] : List HistoryItem) :=
  ⟨(trends_computed_before_append "headache" false ⟨"", "", "", "", ""⟩ [] "fresh" 0
      "English" (.error ()) ⟨[], [], none, some analysisErrorMessage⟩ rfl).1,
   (trends_computed_before_append "headache" false ⟨"", "", "", "", ""⟩ [] "fresh" 0
      "English" (.error ()) ⟨[], [], none, some analysisErrorMessage⟩ rfl).2
    (by simp) exResult⟩

/-- C10: every history entry built by the success path carries a vitals
snapshot (`some v`, even when every field of `v` is the empty string), and on
a history whose entries all carry a snapshot the trend analyzer's
filter-then-take window keeps every entry, drawing the up-to-5 recent window
from all app-created entries. -/
theorem created_entries_always_have_vitals :
    (∀ (symptoms : String) (hasImage : Bool) (v : Vitals) (newId : String) (now : Nat)
      (data : AnalysisResult),
      (mkHistoryItem symptoms hasImage v newId now data).vitals = some v) ∧
    (∀ history : List HistoryItem,
      (∀ e ∈ history, e.vitals.isSome = true) →
      recentWithVitals history = history.take 5) := by
  refine ⟨fun _ _ _ _ _ _ => rfl, fun history h => ?_⟩
  rw [recentWithVitals, List.filter_eq_self.mpr h]

/-- C10 witness: an all-empty-fields vitals snapshot is still stored as
`some`, and a concrete all-snapshot history passes the filter whole. -/
theorem created_entries_always_have_vitals_witness :
    (mkHistoryItem "" true ⟨"", "", "", "", ""⟩ "id0" 3 exResult).vitals =
      some ⟨"", "", "", "", ""⟩ ∧
    recentWithVitals exampleHistory = exampleHistory.take 5 :=
  ⟨created_entries_always_have_vitals.1 "" true ⟨"", "", "", "", ""⟩ "id0" 3 exResult,
   created_entries_always_have_vitals.2 exampleHistory (by decide)⟩

/-- C5, counterexample: the analysis path returns the parsed score/label pair
verbatim, so a response whose header pairs score 90 with label Low produces
an `AnalysisResult` whose confidence violates the bucket thresholds; the
claimed invariant does not hold of every produced result. -/
theorem confidence_bucket_mismatch_example :
    analyzeSymptoms "English"
        (.ok ⟨some "CONFIDENCE_SCORE: 90 | CONFIDENCE_LABEL: Low\nBody", []⟩) =
      .ok ⟨"Body", ⟨90, "Low"⟩, "English", []⟩ ∧
    specBucketAgrees ⟨90, "Low"⟩ = false := ⟨rfl, by decide⟩

/-- C5, amended: every `AnalysisResult` produced by the analysis path either
carries the fallback confidence score 0 / label Low — which does agree with
the bucket thresholds — with the full response text as content, or carries a
score and label taken verbatim from the response's parsed header line with
the content excluding that header line; agreement of a parsed pair with the
bucket thresholds is not enforced. -/
theorem analysis_confidence_structure :
    ∀ (language : String) (call : Except Unit ModelResponse) (r : AnalysisResult),
      analyzeSymptoms language call = .ok r →
      (r.confidence = ⟨0, "Low"⟩ ∧ specBucketAgrees r.confidence = true ∧
        ∃ resp, call = .ok resp ∧ r.content = fullTextOf resp) ∨
      (∃ resp, call = .ok resp ∧
        scanScore (firstLineOf (fullTextOf resp)) = some r.confidence.score ∧
        scanLabel (firstLineOf (fullTextOf resp)) = some r.confidence.label ∧
        r.content = restContentOf (fullTextOf resp)) := by
  intro language call r h
  cases call with
  | error e => exact absurd h (by simp [analyzeSymptoms])
  | ok resp =>
    simp only [analyzeSymptoms, Except.ok.injEq] at h
    subst h
    by_cases hm : containsMarker (firstLineOf (fullTextOf resp)) = true
    · cases hs : scanScore (firstLineOf (fullTextOf resp)) with
      | none =>
        exact Or.inl ⟨by simp [parseConfidence, hm, hs], by simp [parseConfidence, hm, hs]; decide,
          resp, rfl, by simp [parseConfidence, hm, hs]⟩
      | some s =>
        cases hl : scanLabel (firstLineOf (fullTextOf resp)) with
        | none =>
          exact Or.inl ⟨by simp [parseConfidence, hm, hs, hl],
            by simp [parseConfidence, hm, hs, hl]; decide,
            resp, rfl, by simp [parseConfidence, hm, hs, hl]⟩
        | some l =>
          refine Or.inr ⟨resp, rfl, ?_, ?_, ?_⟩ <;> simp [parseConfidence, hm, hs, hl]
    · exact Or.inl ⟨by simp [parseConfidence, hm], by simp [parseConfidence, hm]; decide,
        resp, rfl, by simp [parseConfidence, hm]⟩

/-- C5 witness: the amended theorem applied to a concrete response without a
metadata header: the fallback confidence agrees with the buckets and the
content is the full text. -/
theorem analysis_confidence_structure_witness :
    ((⟨"hello", ⟨0, "Low"⟩, "English", []⟩ : AnalysisResult).confidence = ⟨0, "Low"⟩ ∧
      specBucketAgrees (⟨"hello", ⟨0, "Low"⟩, "English", []⟩ : AnalysisResult).confidence = true ∧
      ∃ resp, (.ok ⟨some "hello", []⟩ : Except Unit ModelResponse) = .ok resp ∧
        (⟨"hello", ⟨0, "Low"⟩, "English", []⟩ : AnalysisResult).content = fullTextOf resp) ∨
    (∃ resp, (.ok ⟨some "hello", []⟩ : Except Unit ModelResponse) = .ok resp ∧
      scanScore (firstLineOf (fullTextOf resp)) =
        some (⟨"hello", ⟨0, "Low"⟩, "English", []⟩ : AnalysisResult).confidence.score ∧
      scanLabel (firstLineOf (fullTextOf resp)) =
        some (⟨"hello", ⟨0, "Low"⟩, "English", []⟩ : AnalysisResult).confidence.label ∧
      (⟨"hello", ⟨0, "Low"⟩, "English", []⟩ : AnalysisResult).content =
        restContentOf (fullTextOf resp)) :=
  analysis_confidence_structure "English" (.ok ⟨some "hello", []⟩)
    ⟨"hello", ⟨0, "Low"⟩, "English", []⟩ rfl

/-- The fever cutoff constant equals the scientific literal of the source. -/
theorem feverCutoff_eq : feverCutoff = 100.4 := by
  have h := Rat.num_div_den feverCutoff
  rw [← h]; norm_num [feverCutoff]

/-- C6: for every parsed temperature `t` the single produced alert is
critical iff `t > 103` or `t < 95`, warning iff `100.4 < t ≤ 103`, else
normal (so 100.4 is normal and 103.0 is warning); heart rate 120 is warning,
121 critical, 50 normal and 49 warning. -/
theorem vitals_thresholds_temp_hr :
    (∀ t : ℚ,
      ((classifyTempOpt (some t)).severity = Severity.critical ↔ (103 < t ∨ t < 95)) ∧
      ((classifyTempOpt (some t)).severity = Severity.warning ↔ (100.4 < t ∧ t ≤ 103)) ∧
      ((classifyTempOpt (some t)).severity = Severity.normal ↔
        (¬(103 < t ∨ t < 95) ∧ ¬(100.4 < t ∧ t ≤ 103)))) ∧
    (classifyTempOpt (some 100.4)).severity = Severity.normal ∧
    (classifyTempOpt (some 103)).severity = Severity.warning ∧
    (classifyHrOpt (some 120)).severity = Severity.warning ∧
    (classifyHrOpt (some 121)).severity = Severity.critical ∧
    (classifyHrOpt (some 50)).severity = Severity.normal ∧
    (classifyHrOpt (some 49)).severity = Severity.warning := by
  have main : ∀ t : ℚ,
      ((classifyTempOpt (some t)).severity = Severity.critical ↔ (103 < t ∨ t < 95)) ∧
      ((classifyTempOpt (some t)).severity = Severity.warning ↔ (100.4 < t ∧ t ≤ 103)) ∧
      ((classifyTempOpt (some t)).severity = Severity.normal ↔
        (¬(103 < t ∨ t < 95) ∧ ¬(100.4 < t ∧ t ≤ 103))) := by
    intro t
    simp only [classifyTempOpt, optGTq, optLTq, feverCutoff_eq, decide_eq_true_eq]
    split_ifs with h1 h2 h3
    · exact ⟨iff_of_true rfl (Or.inl h1),
        iff_of_false (by decide) (fun hc => absurd h1 (not_lt.mpr hc.2)),
        iff_of_false (by decide) (fun hc => hc.1 (Or.inl h1))⟩
    · exact ⟨iff_of_false (by decide) (by rintro (hc | hc); exacts [h1 hc, by linarith]),
        iff_of_true rfl ⟨h2, le_of_not_lt h1⟩,
        iff_of_false (by decide) (fun hc => hc.2 ⟨h2, le_of_not_lt h1⟩)⟩
    · exact ⟨iff_of_true rfl (Or.inr h3),
        iff_of_false (by decide) (fun hc => by linarith [hc.1]),
        iff_of_false (by decide) (fun hc => hc.1 (Or.inr h3))⟩
    · exact ⟨iff_of_false (by decide) (by rintro (hc | hc); exacts [h1 hc, h3 hc]),
        iff_of_false (by decide) (fun hc => h2 hc.1),
        iff_of_true rfl ⟨by rintro (hc | hc); exacts [h1 hc, h3 hc], fun hc => h2 hc.1⟩⟩
  refine ⟨main, ?_, ?_, by decide, by decide, by decide, by decide⟩
  · exact (main 100.4).2.2.mpr (by norm_num)
  · exact (main 103).2.1.mpr (by norm_num)

/-- Every temperature alert carries a temperature-category condition name and
no other category's name. -/
theorem classifyTempOpt_cat (o : Option ℚ) :
    isCat tempConds (classifyTempOpt o) = true ∧ isCat hrConds (classifyTempOpt o) = false ∧
    isCat bpConds (classifyTempOpt o) = false ∧ isCat spo2Conds (classifyTempOpt o) = false := by
  unfold classifyTempOpt
  split_ifs <;> exact ⟨rfl, rfl, rfl, rfl⟩

/-- Every heart-rate alert carries a heart-rate-category condition name and
no other category's name. -/
theorem classifyHrOpt_cat (o : Option Int) :
    isCat tempConds (classifyHrOpt o) = false ∧ isCat hrConds (classifyHrOpt o) = true ∧
    isCat bpConds (classifyHrOpt o) = false ∧ isCat spo2Conds (classifyHrOpt o) = false := by
  unfold classifyHrOpt
  split_ifs <;> exact ⟨rfl, rfl, rfl, rfl⟩

/-- Every blood-pressure alert carries a blood-pressure-category condition
name and no other category's name. -/
theorem classifyBpOpt_cat (s d : Option Int) :
    isCat tempConds (classifyBpOpt s d) = false ∧ isCat hrConds (classifyBpOpt s d) = false ∧
    isCat bpConds (classifyBpOpt s d) = true ∧ isCat spo2Conds (classifyBpOpt s d) = false := by
  unfold classifyBpOpt
  split_ifs <;> exact ⟨rfl, rfl, rfl, rfl⟩

/-- Every SpO2 alert carries an SpO2-category condition name and no other
category's name. -/
theorem classifySpo2Opt_cat (o : Option Int) :
    isCat tempConds (classifySpo2Opt o) = false ∧ isCat hrConds (classifySpo2Opt o) = false ∧
    isCat bpConds (classifySpo2Opt o) = false ∧ isCat spo2Conds (classifySpo2Opt o) = true := by
  unfold classifySpo2Opt
  split_ifs <;> exact ⟨rfl, rfl, rfl, rfl⟩

/-- C7: for every vitals reading, the produced alert list is exactly its
temperature-category alerts, then heart-rate, then blood-pressure, then SpO2
ones (fixed category order), with exactly one alert per populated category:
one temperature alert iff `temp` is populated, one heart-rate alert iff `hr`
is, one blood-pressure alert iff BOTH `bpSys` and `bpDia` are (one alone
yields none), and one SpO2 alert iff `spo2` is. -/
theorem localAnalysis_category_structure :
    ∀ v : Vitals,
      localAnalysisOf v =
        (localAnalysisOf v).filter (isCat tempConds) ++
        (localAnalysisOf v).filter (isCat hrConds) ++
        (localAnalysisOf v).filter (isCat bpConds) ++
        (localAnalysisOf v).filter (isCat spo2Conds) ∧
      ((localAnalysisOf v).filter (isCat tempConds)).length = (if v.temp ≠ "" then 1 else 0) ∧
      ((localAnalysisOf v).filter (isCat hrConds)).length = (if v.hr ≠ "" then 1 else 0) ∧
      ((localAnalysisOf v).filter (isCat bpConds)).length =
        (if v.bpSys ≠ "" ∧ v.bpDia ≠ "" then 1 else 0) ∧
      ((localAnalysisOf v).filter (isCat spo2Conds)).length = (if v.spo2 ≠ "" then 1 else 0) := by
  intro v
  obtain ⟨t1, t2, t3, t4⟩ := classifyTempOpt_cat (jsParseFloat v.temp)
  obtain ⟨r1, r2, r3, r4⟩ := classifyHrOpt_cat (jsParseInt v.hr)
  obtain ⟨b1, b2, b3, b4⟩ := classifyBpOpt_cat (jsParseInt v.bpSys) (jsParseInt v.bpDia)
  obtain ⟨o1, o2, o3, o4⟩ := classifySpo2Opt_cat (jsParseInt v.spo2)
  by_cases h1 : v.temp = "" <;> by_cases h2 : v.hr = "" <;>
    by_cases h3 : v.bpSys = "" <;> by_cases h4 : v.bpDia = "" <;> by_cases h5 : v.spo2 = "" <;>
    simp [localAnalysisOf, h1, h2, h3, h4, h5, t1, t2, t3, t4, r1, r2, r3, r4,
      b1, b2, b3, b4, o1, o2, o3, o4]

/-- Entries whose `hr` field is absent contribute zero to the source's
zero-padded sum, so that sum equals the sum over the hr-populated entries. -/
theorem hrContribution_sum_eq (l : List HistoryItem) :
    (l.map fun h => (hrContribution h : ℚ)).sum =
      ((l.filter fun h => hrField h ≠ "").map fun h => (hrContribution h : ℚ)).sum := by
  induction l with
  | nil => rfl
  | cons a t ih =>
    by_cases ha : hrField a = ""
    · have hz : hrContribution a = 0 := by
        unfold hrContribution
        rw [if_pos ha]
        rfl
      simp [List.filter_cons, ha, hz, ih]
    · simp [List.filter_cons, ha, ih]

/-- The source's average (zero-padded sum over all recent entries, divided by
the count of hr-populated ones) is the spec's mean over hr-populated
entries. -/
theorem codeAvg_eq_meanHR (hist : List HistoryItem) :
    ((recentWithVitals hist).map fun h => (hrContribution h : ℚ)).sum /
      ((((recentWithVitals hist).filter fun h => hrField h ≠ "").length : ℕ) : ℚ) =
      meanHR hist := by
  simp only [meanHR]
  rw [hrContribution_sum_eq]

/-- C4: the trend analyzer.  With an empty filtered window (empty or
all-vitals-less history) nothing is emitted for any current vitals.  With a
non-empty window and a parseable current heart rate `c`, at most one insight
is emitted, and one is emitted exactly when the mean over the hr-populated
recent entries is positive and the current value differs from it by more
than 10 percent in magnitude; the insight's direction is up exactly when the
current value exceeds the mean and its change is the rounded absolute
percent.  The spec's concrete example [70,70,70,70,70] against 85 yields one
insight, direction up, change 21 percent. -/
theorem calculateTrends_heart_rate :
    (∀ (cur : Vitals) (hist : List HistoryItem),
      recentWithVitals hist = [] → calculateTrends cur hist = []) ∧
    (∀ (cur : Vitals) (hist : List HistoryItem) (c : Int),
      cur.hr ≠ "" → jsParseInt cur.hr = some c → recentWithVitals hist ≠ [] →
      (calculateTrends cur hist).length ≤ 1 ∧
      (calculateTrends cur hist ≠ [] ↔
        (0 < meanHR hist ∧ 10 < |((c : ℚ) - meanHR hist) / meanHR hist * 100|)) ∧
      (∀ ins ∈ calculateTrends cur hist,
        ins.metric = "Heart Rate" ∧
        ins.direction =
          (if meanHR hist < (c : ℚ) then Direction.up else Direction.down) ∧
        ins.change =
          toString (jsRound (((c : ℚ) - meanHR hist) / meanHR hist * 100)).natAbs ++ "%")) ∧
    calculateTrends hr85 exampleHistory =
      [⟨"Heart Rate", "21%", Direction.up,
        "Significant increase compared to your recent average. Monitor for fatigue."⟩] := by
  refine ⟨fun cur hist h => by simp [calculateTrends, h], ?_, ?_⟩
  · intro cur hist c hhr hc hne
    have hie : (recentWithVitals hist).isEmpty = false := by
      simpa using hne
    have hunf : calculateTrends cur hist =
        (if 0 < meanHR hist then
          if 10 < |((c : ℚ) - meanHR hist) / meanHR hist * 100| then
            [⟨"Heart Rate",
              toString (jsRound (((c : ℚ) - meanHR hist) / meanHR hist * 100)).natAbs ++ "%",
              if 0 < ((c : ℚ) - meanHR hist) / meanHR hist * 100 then Direction.up
                else Direction.down,
              if 0 < ((c : ℚ) - meanHR hist) / meanHR hist * 100 then
                "Significant increase compared to your recent average. Monitor for fatigue."
              else "Lower than your recent average."⟩]
          else []
        else []) := by
      simp only [calculateTrends, hie, hc, codeAvg_eq_meanHR, hhr, ne_eq,
        Bool.false_eq_true, if_false, not_false_eq_true, if_true]
    by_cases hm : 0 < meanHR hist
    · have hdir : (0 < ((c : ℚ) - meanHR hist) / meanHR hist * 100) ↔
          meanHR hist < (c : ℚ) := by
        constructor
        · intro h
          by_contra hle
          push_neg at hle
          have hq : ((c : ℚ) - meanHR hist) =
              ((c : ℚ) - meanHR hist) / meanHR hist * meanHR hist :=
            (div_mul_cancel₀ _ (ne_of_gt hm)).symm
          nlinarith [h, hle, hm, hq]
        · intro h
          exact mul_pos (div_pos (sub_pos.mpr h) hm) (by norm_num)
      by_cases hpc : 10 < |((c : ℚ) - meanHR hist) / meanHR hist * 100|
      · rw [hunf, if_pos hm, if_pos hpc]
        refine ⟨by simp, iff_of_true (by simp) ⟨hm, hpc⟩, ?_⟩
        intro ins hins
        rw [List.mem_singleton] at hins
        subst hins
        exact ⟨rfl, if_congr hdir rfl rfl, rfl⟩
      · rw [hunf, if_pos hm, if_neg hpc]
        exact ⟨by simp, iff_of_false (by simp) (fun hcontra => hpc hcontra.2), by simp⟩
    · rw [hunf, if_neg hm]
      exact ⟨by simp, iff_of_false (by simp) (fun hcontra => hm hcontra.1), by simp⟩
  · have h1 : recentWithVitals exampleHistory = exampleHistory := rfl
    have h4 : jsParseInt hr85.hr = some 85 := rfl
    have h5 : ((exampleHistory.filter fun h => hrField h ≠ "").length) = 5 := rfl
    have h6 : (exampleHistory.map fun h => (hrContribution h : ℚ)).sum = 350 := by
      show ((70 : ℤ) : ℚ) + (((70 : ℤ) : ℚ) + (((70 : ℤ) : ℚ) +
        (((70 : ℤ) : ℚ) + (((70 : ℤ) : ℚ) + 0)))) = 350
      norm_num
    have havg : ((exampleHistory.map fun h => (hrContribution h : ℚ)).sum) /
        (((exampleHistory.filter fun h => hrField h ≠ "").length : ℕ) : ℚ) = 70 := by
      rw [h5, h6]; norm_num
    simp only [calculateTrends, h1, h4, havg]
    norm_num [jsRound]
    rw [if_neg (by decide), if_neg (by decide),
      if_pos (show (10 : ℚ) < |150/7| by rw [abs_of_pos] <;> norm_num)]
    decide

/-- C4 witness: the general part applied to the concrete current heart rate
85 over the five-times-70 history. -/
theorem calculateTrends_heart_rate_witness :
    (calculateTrends hr85 exampleHistory).length ≤ 1 :=
  (calculateTrends_heart_rate.2.1 hr85 exampleHistory 85 (by decide) rfl (by decide)).1

end Wellness
